import Mathlib

/-!
Verification development for the Plugin Directory Client (`StorePage`) of the
WaveYo-API documentation site.  The definitions below are a shallow embedding
of the page component: its data model (plugin entries, registry responses),
its derived computations (search filter, pagination), and its event-driven
state machine (fetch lifecycle, search input, page navigation, copy feedback).
-/

namespace Store

/-- Substring containment on lists of characters: `listContainsAux hay needle`
is true when `needle` occurs contiguously inside `hay`.  This models the
JavaScript `String.prototype.includes`. -/
def listContainsAux : List Char → List Char → Bool
  | [], needle => needle.isEmpty
  | c :: rest, needle => needle.isPrefixOf (c :: rest) || listContainsAux rest needle

/-- Model of JavaScript `hay.includes(needle)`. -/
def strContains (hay needle : String) : Bool :=
  listContainsAux hay.data needle.data

/-- One plugin entry as delivered by the registry (`items` array element).
Fields as consumed by the page component. -/
structure Plugin where
  name : String
  description : String
  owner : String
  full_name : String
  html_url : String
  language : Option String
  stargazers_count : Nat
  forks_count : Nat
  updated_at : String
  deriving DecidableEq, Repr

/-- The page size `itemsPerPage` is fixed at 12 by the component (`useState(12)`, no setter used). -/
def itemsPerPage : Nat := 12

/-- JavaScript `toLowerCase()` modelled character-wise over the string's character list
(ASCII case folding, which covers all strings the component manipulates). -/
def strToLower (s : String) : String :=
  String.mk (s.data.map Char.toLower)

/-- The search predicate of `filteredPlugins` (source lines 96–102):
case-insensitive substring match of the search term against the
`name`, `description` and `owner` fields. -/
def matchesSearch (p : Plugin) (term : String) : Bool :=
  strContains (strToLower p.name) (strToLower term) ||
  strContains (strToLower p.description) (strToLower term) ||
  strContains (strToLower p.owner) (strToLower term)

/-- The `filteredPlugins` computation (source lines 96–102): the loaded page filtered by the
current search term, client side, preserving order. -/
def filteredPlugins (plugins : List Plugin) (term : String) : List Plugin :=
  plugins.filter (fun p => matchesSearch p term)

/-- Ceiling division `Math.ceil(a / b)` for natural `a` and positive natural `b`. -/
def jsCeilDiv (a b : Nat) : Nat := (a + b - 1) / b

/-- The `totalPages` computation (source line 115): `Math.ceil(filteredPlugins.length / itemsPerPage)`.
Note the source applies no lower bound of 1. -/
def totalPages (plugins : List Plugin) (term : String) : Nat :=
  jsCeilDiv (filteredPlugins plugins term).length itemsPerPage

/-- The install command string built by `copyInstallCommand` (source line 42):
`` `yoapi install ${fullName}` ``. -/
def installCommand (fullName : String) : String :=
  "yoapi install " ++ fullName

/-- Convenience constructor for concrete plugin entries: the remaining
display-only fields are filled with neutral values. -/
def mkPlugin (name description owner full_name : String) : Plugin :=
  { name := name
    description := description
    owner := owner
    full_name := full_name
    html_url := ""
    language := none
    stargazers_count := 0
    forks_count := 0
    updated_at := "" }

/-- A successful registry response body as read by `fetchPlugins`
(source lines 77–83): each top-level field may be absent from the JSON. -/
structure RegistryResponse where
  items : Option (List Plugin)
  total_count : Option Nat
  has_next_page : Option Bool
  deriving DecidableEq, Repr

/-- A registry response with all three top-level fields absent. -/
def emptyResponse : RegistryResponse :=
  { items := none, total_count := none, has_next_page := none }

/-- One `fetchPlugins` invocation in flight: the page it requested and the
value of `useMockData` when it started. -/
structure FetchRequest where
  page : Nat
  mock : Bool
  deriving DecidableEq, Repr

/-- The component state of `StorePage` (source lines 25–38) together with the
list of in-flight `fetchPlugins` invocations.  `itemsPerPage` is a constant
(12) and the copy-feedback state is modelled separately (`CopyState`),
because its dynamics involve real time. -/
structure StoreState where
  plugins : List Plugin
  loading : Bool
  error : Option String
  searchTerm : String
  currentPage : Nat
  totalCount : Nat
  hasNextPage : Bool
  useMockData : Bool
  inflight : List FetchRequest
  deriving DecidableEq, Repr

/-- The user-facing error message set by the `catch` branch (source line 87). -/
def errorMessage : String := "获取元数据失败，请检查网络环境"

/-- Initial state: `useState` initializers (source lines 25–38), with the
mount effect (source lines 56–93) having started the page-1 fetch. -/
def initialState : StoreState :=
  { plugins := []
    loading := true
    error := none
    searchTerm := ""
    currentPage := 1
    totalCount := 0
    hasNextPage := false
    useMockData := false
    inflight := [{ page := 1, mock := false }] }

/-- Model of `setCurrentPage` followed by the effect re-run (source lines 56–93):
`setLoading(true)` and a new fetch for the new page is issued.  The `error`
field is not touched — the source never calls `setError(null)`. -/
def startFetch (s : StoreState) (p : Nat) : StoreState :=
  { s with currentPage := p
           loading := true
           inflight := s.inflight ++ [{ page := p, mock := s.useMockData }] }

/-- Applying a successful fetch response (source lines 80–83):
`setPlugins(data.items || [])`, `setTotalCount(data.total_count || 0)`,
`setHasNextPage(data.has_next_page || false)`, `setLoading(false)`.
Absent fields default; `error` is left unchanged. -/
def applyFetchSuccess (s : StoreState) (r : RegistryResponse) : StoreState :=
  { s with plugins := r.items.getD []
           totalCount := r.total_count.getD 0
           hasNextPage := r.has_next_page.getD false
           loading := false }

/-- The three render branches of `StorePage` (source lines 119–140):
`loading` is checked first, then `error`, else the content grid. -/
inductive ViewTag where
  | Loading
  | Error
  | Ready
  deriving DecidableEq, Repr

/-- Which of the three render branches is shown (source lines 119–140). -/
def viewTag (s : StoreState) : ViewTag :=
  if s.loading then ViewTag.Loading
  else if s.error.isSome then ViewTag.Error
  else ViewTag.Ready

/-- The events driving `StorePage`: a fetch resolving (successfully, via the
fixture branch, or with an error), a keystroke in the search box, and the
previous/next page buttons. -/
inductive Event where
  | resolveOk (i : Nat) (r : RegistryResponse)
  | resolveMock (i : Nat)
  | resolveErr (i : Nat)
  | searchInput (t : String)
  | prevPage
  | nextPage
  deriving DecidableEq, Repr

/-- One transition of `StorePage`.  `none` means the event is not enabled in
state `s`.  Faithfulness notes, keyed to the source:
* fetch resolutions (lines 61–89) may complete in any order; the handlers
  apply their result unconditionally, with no request-identity guard;
* the fixture branch (lines 61–68) requires the request to have been issued
  with `useMockData` true; `fixture` stands for the bundled `mockPlugins`
  list (its contents are irrelevant: the branch is unreachable, see below);
* the search box (lines 151–157) and the pagination buttons (lines 226–242)
  are only rendered in the content branch (`¬loading` and no error), the
  pagination block only when `totalPages > 1`, and each button is disabled
  at its boundary;
* clicking a page button changes `currentPage` (clamped as in lines 229 and
  236) and re-runs the fetch effect (`startFetch`);
* nothing ever calls `setUseMockData` (declared line 38, never used). -/
def storeStep (fixture : List Plugin) (s : StoreState) : Event → Option StoreState
  | Event.resolveOk i r =>
    match s.inflight[i]? with
    | some req =>
      if req.mock then none
      else some { applyFetchSuccess s r with inflight := s.inflight.eraseIdx i }
    | none => none
  | Event.resolveMock i =>
    match s.inflight[i]? with
    | some req =>
      if req.mock then
        some { s with plugins := fixture
                      totalCount := fixture.length
                      hasNextPage := false
                      loading := false
                      inflight := s.inflight.eraseIdx i }
      else none
    | none => none
  | Event.resolveErr i =>
    match s.inflight[i]? with
    | some _ =>
      some { s with error := some errorMessage
                    loading := false
                    inflight := s.inflight.eraseIdx i }
    | none => none
  | Event.searchInput t =>
    if s.loading = false ∧ s.error = none then
      some { s with searchTerm := t }
    else none
  | Event.prevPage =>
    if s.loading = false ∧ s.error = none ∧
        1 < totalPages s.plugins s.searchTerm ∧ s.currentPage ≠ 1 then
      some (startFetch s (max (s.currentPage - 1) 1))
    else none
  | Event.nextPage =>
    if s.loading = false ∧ s.error = none ∧
        1 < totalPages s.plugins s.searchTerm ∧
        s.currentPage ≠ totalPages s.plugins s.searchTerm then
      some (startFetch s (min (s.currentPage + 1) (totalPages s.plugins s.searchTerm)))
    else none

/-- States of `StorePage` reachable from mount through UI and network events. -/
inductive Reachable (fixture : List Plugin) : StoreState → Prop where
  | init : Reachable fixture initialState
  | next {s s' : StoreState} {e : Event} :
      Reachable fixture s → storeStep fixture s e = some s' → Reachable fixture s'

/-- The copy-feedback state of `copyInstallCommand` (source lines 41–54),
with explicit time in milliseconds: `copiedButtonId` is the component state
(source line 33), `timers` are the fire times of the pending `setTimeout`
callbacks (each callback is `() => setCopiedButtonId(null)`, source lines
48–50), and `now` is the current time. -/
structure CopyState where
  copiedButtonId : Option Nat
  timers : List Nat
  now : Nat
  deriving DecidableEq, Repr

/-- Before the first copy action: no feedback, no pending timers. -/
def initialCopyState : CopyState :=
  { copiedButtonId := none, timers := [], now := 0 }

/-- Events of the copy-feedback subsystem: a successful copy action on card
`idx` at absolute time `t`, or a pending timer firing. -/
inductive CopyEvent where
  | copy (idx t : Nat)
  | fire (i : Nat)
  deriving DecidableEq, Repr

/-- One transition of the copy-feedback subsystem.  Events happen in time
order: a copy at time `t` requires that no pending timer is due before `t`,
and a timer may fire only when it is the earliest pending one.  The source
(lines 41–54): a copy sets `copiedButtonId` to the triggering index and
schedules a timer 3000 ms out; a firing timer sets `copiedButtonId` to
`null` unconditionally — nothing cancels a timer and the callback compares
no index. -/
def copyStep (s : CopyState) : CopyEvent → Option CopyState
  | CopyEvent.copy idx t =>
    if s.now ≤ t ∧ (∀ ft ∈ s.timers, t ≤ ft) then
      some { copiedButtonId := some idx, timers := s.timers ++ [t + 3000], now := t }
    else none
  | CopyEvent.fire i =>
    match s.timers[i]? with
    | some ft =>
      if s.now ≤ ft ∧ (∀ ft2 ∈ s.timers, ft ≤ ft2) then
        some { copiedButtonId := none, timers := s.timers.eraseIdx i, now := ft }
      else none
    | none => none

/-- Copy-feedback states reachable from the initial state. -/
inductive CopyReachable : CopyState → Prop where
  | init : CopyReachable initialCopyState
  | next {s s' : CopyState} {e : CopyEvent} :
      CopyReachable s → copyStep s e = some s' → CopyReachable s'

/-- A plugin entry as a raw JavaScript object: the fields read by the filter
may be absent (`undefined`). -/
structure PluginJS where
  name : Option String
  description : Option String
  owner : Option String
  deriving DecidableEq, Repr

/-- The filter predicate of source lines 97–99 evaluated on a raw object,
with JavaScript semantics: `plugin.name.toLowerCase()` throws a `TypeError`
when the field is absent (modelled as `none`), and `||` short-circuits, so
later fields are only read when the earlier checks did not match. -/
def jsMatches (p : PluginJS) (term : String) : Option Bool :=
  match p.name with
  | none => none
  | some n =>
    if strContains (strToLower n) (strToLower term) then some true
    else
      match p.description with
      | none => none
      | some d =>
        if strContains (strToLower d) (strToLower term) then some true
        else
          match p.owner with
          | none => none
          | some o => some (strContains (strToLower o) (strToLower term))

/-- Model of `Array.prototype.filter` over raw objects (source lines 96–102): items
are visited in order and an exception from the predicate aborts the whole
computation (`none`). -/
def jsFilter (ps : List PluginJS) (term : String) : Option (List PluginJS) :=
  match ps with
  | [] => some []
  | p :: rest =>
    match jsMatches p term with
    | none => none
    | some b =>
      match jsFilter rest term with
      | none => none
      | some l => some (if b then p :: l else l)

/-! ### Helper lemmas -/

theorem listContainsAux_empty_needle (l : List Char) : listContainsAux l [] = true := by
  cases l <;> simp [listContainsAux, List.isPrefixOf]

theorem strContains_empty_needle (s : String) : strContains s "" = true := by
  simpa [strContains] using listContainsAux_empty_needle s.data

theorem matchesSearch_empty_term (p : Plugin) : matchesSearch p "" = true := by
  have h : strToLower "" = "" := rfl
  simp [matchesSearch, h, strContains_empty_needle]

theorem jsCeilDiv_pos_of_pos {n : Nat} (h : 1 ≤ n) : 1 ≤ jsCeilDiv n itemsPerPage := by
  have h12 : (0 : Nat) < 12 := by norm_num
  have : 1 * 12 ≤ n + 12 - 1 := by omega
  simpa [jsCeilDiv, itemsPerPage] using (Nat.le_div_iff_mul_le h12).mpr this

/-! ### Claims -/

/-- Claim C9: For every plugin entry, the string written to the clipboard by
`copyInstallCommand` is exactly the fixed CLI name `yoapi`, a space, the word
`install`, a space, and the plugin's `fullName`; in particular for
`WaveYo/yoapi_plugin_demoapi` it is exactly
`"yoapi install WaveYo/yoapi_plugin_demoapi"`. -/
theorem c9_install_command_format (fullName : String) :
    installCommand fullName = "yoapi" ++ " " ++ "install" ++ " " ++ fullName ∧
    installCommand "WaveYo/yoapi_plugin_demoapi" =
      "yoapi install WaveYo/yoapi_plugin_demoapi" := by
  exact ⟨rfl, rfl⟩

/-- Claim C8: For every loaded list of items and every search term,
`length(filtered) ≤ length(items)`, and when the search term is the empty
string the filtered list equals the loaded list exactly (same elements, same
order). -/
theorem c8_filter_narrows (plugins : List Plugin) (term : String) :
    (filteredPlugins plugins term).length ≤ plugins.length ∧
    filteredPlugins plugins "" = plugins := by
  refine ⟨List.length_filter_le _ _, ?_⟩
  exact List.filter_eq_self.mpr (fun p _ => matchesSearch_empty_term p)

/-- Claim C3, counterexample: With no loaded items and the empty search term the
computed page count is `0`, not `max(1, ceil(0 / 12)) = 1`: the source
(line 115) computes `Math.ceil(len / 12)` with no lower bound of 1. -/
theorem c3_totalPages_counterexample :
    totalPages [] "" = 0 ∧
    totalPages [] "" ≠ max 1 (jsCeilDiv (filteredPlugins [] "").length itemsPerPage) := by
  exact ⟨rfl, by decide⟩

/-- Claim C3, amended: The computed page count equals `ceil(length(filtered)/12)`
with no lower bound: it coincides with `max(1, ceil(length(filtered)/12))`
whenever the filtered list is nonempty, but is `0` (not `1`) when the
filtered list is empty. -/
theorem c3_totalPages_formula (plugins : List Plugin) (term : String) :
    totalPages plugins term = jsCeilDiv (filteredPlugins plugins term).length itemsPerPage ∧
    ((filteredPlugins plugins term).length ≠ 0 →
      totalPages plugins term =
        max 1 (jsCeilDiv (filteredPlugins plugins term).length itemsPerPage)) := by
  refine ⟨rfl, fun h => ?_⟩
  have h1 : 1 ≤ (filteredPlugins plugins term).length := Nat.one_le_iff_ne_zero.mpr h
  have := jsCeilDiv_pos_of_pos h1
  simp [totalPages, Nat.max_eq_right this]

/-- Witness for C3 amended: one loaded plugin, empty search term. -/
theorem c3_totalPages_formula_witness :
    (filteredPlugins [mkPlugin "log" "" "w" "w/log"] "").length ≠ 0 ∧
    totalPages [mkPlugin "log" "" "w" "w/log"] "" =
      max 1 (jsCeilDiv (filteredPlugins [mkPlugin "log" "" "w" "w/log"] "").length
        itemsPerPage) := by
  refine ⟨by decide, ?_⟩
  exact (c3_totalPages_formula [mkPlugin "log" "" "w" "w/log"] "").2 (by decide)

/-- Claim C5: For every successful registry response, each absent top-level
field is defaulted when the result is applied to the state (source lines
80–83): a missing `items` array is treated as the empty list, a missing
`total_count` as `0`, and a missing `has_next_page` as `false`. -/
theorem c5_absent_fields_default (s : StoreState) (r : RegistryResponse) :
    (r.items = none → (applyFetchSuccess s r).plugins = []) ∧
    (r.total_count = none → (applyFetchSuccess s r).totalCount = 0) ∧
    (r.has_next_page = none → (applyFetchSuccess s r).hasNextPage = false) := by
  refine ⟨fun h => ?_, fun h => ?_, fun h => ?_⟩ <;> simp [applyFetchSuccess, h]

/-- Witness for C5: a response with all three fields absent, applied to the
initial state. -/
theorem c5_absent_fields_default_witness :
    (applyFetchSuccess initialState emptyResponse).plugins = [] ∧
    (applyFetchSuccess initialState emptyResponse).totalCount = 0 ∧
    (applyFetchSuccess initialState emptyResponse).hasNextPage = false := by
  have h := c5_absent_fields_default initialState emptyResponse
  exact ⟨h.1 rfl, h.2.1 rfl, h.2.2 rfl⟩

/-- Every reachable state has `useMockData = false` and only remote (non-mock)
fetch requests in flight: the flag starts `false` and no event changes it. -/
theorem reachable_mock_false {fixture : List Plugin} {s : StoreState}
    (h : Reachable fixture s) :
    s.useMockData = false ∧ ∀ req ∈ s.inflight, req.mock = false := by
  induction h with
  | init => exact ⟨rfl, by decide⟩
  | @next s0 s1 e hr hstep ih =>
    cases e with
    | resolveOk i r =>
      simp only [storeStep] at hstep
      split at hstep
      · split at hstep
        · exact absurd hstep (by simp)
        · cases hstep
          refine ⟨ih.1, fun req hreq => ?_⟩
          exact ih.2 req (List.mem_of_mem_eraseIdx hreq)
      · exact absurd hstep (by simp)
    | resolveMock i =>
      simp only [storeStep] at hstep
      split at hstep
      · split at hstep
        · cases hstep
          refine ⟨ih.1, fun req hreq => ?_⟩
          exact ih.2 req (List.mem_of_mem_eraseIdx hreq)
        · exact absurd hstep (by simp)
      · exact absurd hstep (by simp)
    | resolveErr i =>
      simp only [storeStep] at hstep
      split at hstep
      · cases hstep
        refine ⟨ih.1, fun req hreq => ?_⟩
        exact ih.2 req (List.mem_of_mem_eraseIdx hreq)
      · exact absurd hstep (by simp)
    | searchInput t =>
      simp only [storeStep] at hstep
      split at hstep
      · cases hstep
        exact ⟨ih.1, ih.2⟩
      · exact absurd hstep (by simp)
    | prevPage =>
      simp only [storeStep] at hstep
      split at hstep
      · cases hstep
        refine ⟨ih.1, fun req hreq => ?_⟩
        simp only [startFetch, List.mem_append] at hreq
        rcases hreq with hreq | hreq
        · exact ih.2 req hreq
        · simp only [List.mem_singleton] at hreq
          subst hreq
          exact ih.1
      · exact absurd hstep (by simp)
    | nextPage =>
      simp only [storeStep] at hstep
      split at hstep
      · cases hstep
        refine ⟨ih.1, fun req hreq => ?_⟩
        simp only [startFetch, List.mem_append] at hreq
        rcases hreq with hreq | hreq
        · exact ih.2 req hreq
        · simp only [List.mem_singleton] at hreq
          subst hreq
          exact ih.1
      · exact absurd hstep (by simp)

/-- Claim C10: In every reachable state the data-source flag `useMockData` is
`false`: it is initialized to `false` (source line 38) and no operation ever
calls `setUseMockData`, so every in-flight fetch is a remote fetch and the
fixture branch of `fetchPlugins` (source lines 61–68) can never fire. -/
theorem c10_useMockData_never_set (fixture : List Plugin) (s : StoreState)
    (h : Reachable fixture s) :
    s.useMockData = false ∧ (∀ req ∈ s.inflight, req.mock = false) ∧
    ∀ i, storeStep fixture s (Event.resolveMock i) = none := by
  obtain ⟨h1, h2⟩ := reachable_mock_false h
  refine ⟨h1, h2, fun i => ?_⟩
  simp only [storeStep]
  split
  · rename_i req heq
    have hm : req.mock = false := h2 req (List.getElem?_mem heq)
    simp [hm]
  · rfl

/-- Witness for C10: the initial state. -/
theorem c10_useMockData_never_set_witness :
    initialState.useMockData = false ∧
    (∀ req ∈ initialState.inflight, req.mock = false) ∧
    ∀ i, storeStep [] initialState (Event.resolveMock i) = none :=
  c10_useMockData_never_set [] initialState Reachable.init

/-- Claim C2, amended: In every reachable state `currentPage ≥ 1`: it starts at
1 and the page buttons clamp with `Math.max(prev - 1, 1)` and
`Math.min(prev + 1, totalPages)` under the guard `totalPages > 1`. -/
theorem c2_currentPage_lower_bound (fixture : List Plugin) (s : StoreState)
    (h : Reachable fixture s) : 1 ≤ s.currentPage := by
  induction h with
  | init => decide
  | @next s0 s1 e hr hstep ih =>
    cases e with
    | resolveOk i r =>
      simp only [storeStep] at hstep
      split at hstep
      · split at hstep
        · exact absurd hstep (by simp)
        · cases hstep
          simpa [applyFetchSuccess] using ih
      · exact absurd hstep (by simp)
    | resolveMock i =>
      simp only [storeStep] at hstep
      split at hstep
      · split at hstep
        · cases hstep
          simpa using ih
        · exact absurd hstep (by simp)
      · exact absurd hstep (by simp)
    | resolveErr i =>
      simp only [storeStep] at hstep
      split at hstep
      · cases hstep
        simpa using ih
      · exact absurd hstep (by simp)
    | searchInput t =>
      simp only [storeStep] at hstep
      split at hstep
      · cases hstep
        simpa using ih
      · exact absurd hstep (by simp)
    | prevPage =>
      simp only [storeStep] at hstep
      split at hstep
      · cases hstep
        simp only [startFetch]
        exact Nat.le_max_right _ 1
      · exact absurd hstep (by simp)
    | nextPage =>
      simp only [storeStep] at hstep
      split at hstep
      · rename_i hc
        cases hstep
        simp only [startFetch]
        exact Nat.le_min.mpr ⟨by omega, Nat.le_of_lt hc.2.2.1⟩
      · exact absurd hstep (by simp)

/-- Witness for C2 amended: the initial state. -/
theorem c2_currentPage_lower_bound_witness : 1 ≤ initialState.currentPage :=
  c2_currentPage_lower_bound [] initialState Reachable.init

/-- A concrete plugin entry used in the counterexample traces. -/
def pDemo : Plugin := mkPlugin "alpha" "demo" "waveyo" "waveyo/alpha"

/-- A registry response carrying 13 items (the component does not check that
the server honors `per_page`). -/
def c2r13 : RegistryResponse :=
  { items := some (List.replicate 13 pDemo), total_count := some 50,
    has_next_page := some true }

/-- A registry response for page 2 carrying 2 items. -/
def c2r2 : RegistryResponse :=
  { items := some [pDemo, pDemo], total_count := some 50, has_next_page := some true }

/-- State after the mount fetch resolves with 13 items. -/
def c2s1 : StoreState :=
  { plugins := List.replicate 13 pDemo
    loading := false
    error := none
    searchTerm := ""
    currentPage := 1
    totalCount := 50
    hasNextPage := true
    useMockData := false
    inflight := [] }

/-- State after clicking the next-page button from `c2s1`. -/
def c2s2 : StoreState :=
  { c2s1 with currentPage := 2
              loading := true
              inflight := [{ page := 2, mock := false }] }

/-- State after the page-2 fetch resolves with 2 items. -/
def c2s3 : StoreState :=
  { plugins := [pDemo, pDemo]
    loading := false
    error := none
    searchTerm := ""
    currentPage := 2
    totalCount := 50
    hasNextPage := true
    useMockData := false
    inflight := [] }

/-- Claim C2, counterexample: A reachable state violating the claimed upper
bound: the mount fetch resolves with 13 items (`totalPages = 2`), the user
clicks next page (`currentPage = 2`), and the page-2 fetch resolves with only
2 items.  The recomputation leaves `currentPage = 2` while
`max(1, ceil(2 / 12)) = 1`: nothing in the source re-clamps `currentPage`
when the filtered list shrinks. -/
theorem c2_upper_bound_counterexample :
    Reachable [] c2s3 ∧ c2s3.currentPage = 2 ∧
    max 1 (jsCeilDiv (filteredPlugins c2s3.plugins c2s3.searchTerm).length itemsPerPage)
      = 1 ∧
    ¬(c2s3.currentPage ≤
      max 1 (jsCeilDiv (filteredPlugins c2s3.plugins c2s3.searchTerm).length
        itemsPerPage)) := by
  have h1 : storeStep [] initialState (Event.resolveOk 0 c2r13) = some c2s1 := by decide
  have h2 : storeStep [] c2s1 Event.nextPage = some c2s2 := by decide
  have h3 : storeStep [] c2s2 (Event.resolveOk 0 c2r2) = some c2s3 := by decide
  refine ⟨?_, rfl, by decide, by decide⟩
  exact Reachable.next (Reachable.next (Reachable.next Reachable.init h1) h2) h3

/-- A second concrete plugin entry, distinct from `pDemo`. -/
def pBeta : Plugin := mkPlugin "beta" "newer" "waveyo" "waveyo/beta"

/-- Request B's response (page 2). -/
def c1rB : RegistryResponse :=
  { items := some [pBeta], total_count := some 2, has_next_page := some false }

/-- Request A's response (page 1), resolving last. -/
def c1rA : RegistryResponse :=
  { items := some [pDemo], total_count := some 2, has_next_page := some true }

/-- The mount fetch (request A, page 1) still in flight when page 2 is
requested (request B): the scenario posited by the claim. -/
def c1sIssued : StoreState := startFetch initialState 2

/-- State after request B (page 2) resolves first. -/
def c1sAfterB : StoreState :=
  { plugins := [pBeta]
    loading := false
    error := none
    searchTerm := ""
    currentPage := 2
    totalCount := 2
    hasNextPage := false
    useMockData := false
    inflight := [{ page := 1, mock := false }] }

/-- State after the stale request A (page 1) resolves last. -/
def c1sAfterA : StoreState :=
  { plugins := [pDemo]
    loading := false
    error := none
    searchTerm := ""
    currentPage := 2
    totalCount := 2
    hasNextPage := true
    useMockData := false
    inflight := [] }

/-- Claim C1, refuted on the code: With request A (page 1) in flight when
request B (page 2) is issued, B resolving first and A resolving last, the
final state holds A's items, not B's: the completion handler of
`fetchPlugins` (source lines 77–83) applies its response unconditionally —
no request generation counter, cancellation token, or cleanup guards against
out-of-order completion.  The final view shows page 1's stale items while
`currentPage` is 2. -/
theorem c1_stale_response_overwrites :
    c1sIssued.inflight = [{ page := 1, mock := false }, { page := 2, mock := false }] ∧
    storeStep [] c1sIssued (Event.resolveOk 1 c1rB) = some c1sAfterB ∧
    c1sAfterB.plugins = [pBeta] ∧
    storeStep [] c1sAfterB (Event.resolveOk 0 c1rA) = some c1sAfterA ∧
    c1sAfterA.plugins = [pDemo] ∧ pDemo ≠ pBeta ∧ c1sAfterA.currentPage = 2 := by
  decide

/-- State after the mount fetch fails. -/
def c4sErr : StoreState :=
  { plugins := []
    loading := false
    error := some errorMessage
    searchTerm := ""
    currentPage := 1
    totalCount := 0
    hasNextPage := false
    useMockData := false
    inflight := [] }

/-- A page-change input applied from the error state: the effect re-runs and
a new fetch starts. -/
def c4sLoad : StoreState := startFetch c4sErr 2

/-- A successful response for the retried fetch. -/
def c4rOk : RegistryResponse :=
  { items := some [pDemo], total_count := some 1, has_next_page := some false }

/-- State after the retried fetch resolves successfully. -/
def c4sDone : StoreState :=
  { plugins := [pDemo]
    loading := false
    error := some errorMessage
    searchTerm := ""
    currentPage := 2
    totalCount := 1
    hasNextPage := false
    useMockData := false
    inflight := [] }

/-- Claim C4, refuted on the code: After a failed fetch (reachable `c4sErr`),
a page-change input does re-enter `Loading`, and a successful fetch does
store `items`, `totalCount` and `hasNextPage` — but the view renders the
**Error** branch, not `Ready`: nothing ever resets `error` to `null` (the
`try` block of source lines 58–84 has no `setError(null)`), and the render
checks `error` before reaching the grid (source lines 130–138).  The error
view moreover renders no page controls at all, so inside the component the
error state is a dead end. -/
theorem c4_success_after_error_renders_error :
    storeStep [] initialState (Event.resolveErr 0) = some c4sErr ∧
    Reachable [] c4sErr ∧
    viewTag c4sLoad = ViewTag.Loading ∧
    storeStep [] c4sLoad (Event.resolveOk 0 c4rOk) = some c4sDone ∧
    c4sDone.plugins = [pDemo] ∧ c4sDone.totalCount = 1 ∧
    c4sDone.hasNextPage = false ∧
    viewTag c4sDone = ViewTag.Error := by
  refine ⟨by decide, ?_, by decide, by decide, rfl, rfl, rfl, by decide⟩
  exact @Reachable.next [] initialState c4sErr (Event.resolveErr 0)
    Reachable.init (by decide)

/-- A raw item whose `name` field is absent; its `description` would match
the search term `"log"`. -/
def c6Bad : PluginJS :=
  { name := none, description := some "a logging helper", owner := some "waveyo" }

/-- A raw item with all three searched fields present. -/
def c6Good : PluginJS :=
  { name := some "yoapi_plugin_log", description := some "logger",
    owner := some "waveyo" }

/-- Claim C6, counterexample: Filtering a loaded page containing an item with an
absent `name` field faults (`none` models the thrown `TypeError` from
`plugin.name.toLowerCase()`, source line 97) instead of defaulting the field:
the whole filter computation is aborted even though the item's `description`
matches the term. -/
theorem c6_missing_field_faults : jsFilter [c6Bad] "log" = none := by decide

/-- The filter predicate evaluates to a value (no fault) on any item whose
three searched fields are present. -/
theorem jsMatches_isSome (p : PluginJS) (term : String) (hn : p.name.isSome)
    (hd : p.description.isSome) (ho : p.owner.isSome) :
    (jsMatches p term).isSome = true := by
  obtain ⟨n, hn⟩ := Option.isSome_iff_exists.mp hn
  obtain ⟨d, hd⟩ := Option.isSome_iff_exists.mp hd
  obtain ⟨o, ho⟩ := Option.isSome_iff_exists.mp ho
  simp only [jsMatches, hn, hd, ho]
  split
  · rfl
  · split <;> rfl

/-- Claim C6, amended: The filter evaluates totally only on items whose `name`,
`description` and `owner` fields are all present; an item with an absent
field makes the filter computation fault when the field is read (the `name`
is always read; `description` and `owner` only when the earlier checks did
not match).  No defaulting is applied. -/
theorem c6_filter_total_when_fields_present (ps : List PluginJS) (term : String)
    (h : ∀ p ∈ ps, p.name.isSome ∧ p.description.isSome ∧ p.owner.isSome) :
    (jsFilter ps term).isSome = true := by
  induction ps with
  | nil => rfl
  | cons p rest ih =>
    obtain ⟨hn, hd, ho⟩ := h p (by simp)
    obtain ⟨b, hb⟩ := Option.isSome_iff_exists.mp (jsMatches_isSome p term hn hd ho)
    obtain ⟨l, hl⟩ := Option.isSome_iff_exists.mp (ih (fun q hq => h q (by simp [hq])))
    simp [jsFilter, hb, hl]

/-- Witness for C6 amended: a one-item page with all fields present. -/
theorem c6_filter_total_when_fields_present_witness :
    (∀ p ∈ [c6Good], p.name.isSome ∧ p.description.isSome ∧ p.owner.isSome) ∧
    (jsFilter [c6Good] "log").isSome = true :=
  ⟨by decide, c6_filter_total_when_fields_present [c6Good] "log" (by decide)⟩

/-- Copy feedback on card 0 at time 0 ms: a timer is pending for 3000 ms. -/
def c7s1 : CopyState := { copiedButtonId := some 0, timers := [3000], now := 0 }

/-- Copy feedback superseded by card 1 at time 2900 ms: card 0's stale timer
(3000 ms) is still pending next to card 1's fresh timer (5900 ms). -/
def c7s2 : CopyState := { copiedButtonId := some 1, timers := [3000, 5900], now := 2900 }

/-- State after card 0's stale timer fires at 3000 ms. -/
def c7s3 : CopyState := { copiedButtonId := none, timers := [5900], now := 3000 }

/-- **C7 refuted on the code.** Copy card 0 at t = 0 ms, copy card 1 at
t = 2900 ms: card 1's feedback is active with 3000 ms still to run.  At
t = 3000 ms the timer scheduled by the *earlier* copy fires and its callback
`() => setCopiedButtonId(null)` (source lines 48–50) clears the feedback
unconditionally — nothing cancels the stale timer and the callback compares
no index.  Card 1's feedback is erased after 100 ms instead of lasting until
t = 5900 ms. -/
theorem c7_stale_timer_erases_newer_feedback :
    CopyReachable c7s2 ∧ c7s2.copiedButtonId = some 1 ∧ c7s2.now = 2900 ∧
    copyStep c7s2 (CopyEvent.fire 0) = some c7s3 ∧
    c7s3.copiedButtonId = none ∧ c7s3.now = 3000 ∧ c7s3.now < 2900 + 3000 := by
  have h1 : copyStep initialCopyState (CopyEvent.copy 0 0) = some c7s1 := by decide
  have h2 : copyStep c7s1 (CopyEvent.copy 1 2900) = some c7s2 := by decide
  exact ⟨CopyReachable.next (CopyReachable.next CopyReachable.init h1) h2, rfl, rfl,
    by decide, rfl, rfl, by decide⟩

end Store
